import Mathlib

/-
Shallow embedding of `scripts/apply-engagement-metrics.py`.

Modelling conventions:
* Python float arithmetic is modelled as exact rational arithmetic over ℚ.
  At every concrete value the specification mentions, IEEE-double evaluation
  and exact rational evaluation agree.
* Python `int(x)` on a float truncates toward zero; it is modelled by `pyInt`.
* Timestamps are modelled as naive wall-clock seconds (the script strips the
  time zone with `replace(tzinfo=None)` before subtracting).  `timedelta.days`
  is floor division of the signed second difference by 86400.
* The seeded pseudo-random generator (`random.seed(42)` once per run) is
  modelled as a deterministic stream of unit draws in `[0,1)` together with a
  cursor; each primitive call (`randint`, `uniform`, `random`) consumes exactly
  one draw.  Only the documented range contract of each primitive is used.
* Python dicts built by comprehension keep the *last* record for a duplicated
  key; `dictGet` models lookup in such a dict.
-/

deriving instance DecidableEq for Except

namespace Engagement

/-- Python `int(x)` applied to a float: truncation toward zero. -/
def pyInt (q : ℚ) : ℤ := if q < 0 then -⌊-q⌋ else ⌊q⌋

/-- State of the `random` module after `random.seed(42)`: a deterministic
stream of unit draws plus a cursor recording how many draws were consumed. -/
structure Rng where
  stream : ℕ → ℚ
  pos : ℕ

/-- Well-formed entropy: every unit draw lies in `[0, 1)`. -/
def Rng.wf (r : Rng) : Prop := ∀ n, 0 ≤ r.stream n ∧ r.stream n < 1

/-- Consume one unit draw. -/
def Rng.next (r : Rng) : ℚ × Rng := (r.stream r.pos, ⟨r.stream, r.pos + 1⟩)

/-- `random.randint(lo, hi)`: a uniform integer in `[lo, hi]`, both ends
inclusive, obtained from one unit draw. -/
def Rng.randint (lo hi : ℤ) (r : Rng) : ℤ × Rng :=
  let p := r.next
  (lo + ⌊p.1 * ((hi - lo + 1 : ℤ) : ℚ)⌋, p.2)

/-- `random.uniform(a, b)`: a uniform float in `[a, b]`. -/
def Rng.uniform (a b : ℚ) (r : Rng) : ℚ × Rng :=
  let p := r.next
  (a + p.1 * (b - a), p.2)

/-- `random.random()`: a uniform float in `[0, 1)`. -/
def Rng.random (r : Rng) : ℚ × Rng := r.next

/-- Record of `courses.json`. -/
structure Course where
  id : String
  enrollmentCount : ℤ
deriving DecidableEq

/-- Record of `users.json`. -/
structure User where
  id : String
  role : String
deriving DecidableEq

/-- Record of `posts.json`. -/
structure Post where
  id : String
  threadId : String
  authorId : String
  endorsed : Bool
deriving DecidableEq

/-- One citation of an AI answer. -/
structure Citation where
  relevance : ℤ
deriving DecidableEq

/-- Record of `ai-answers.json`; the last four fields are the derived fields
the script writes. -/
structure AIAnswer where
  id : String
  threadId : String
  confidenceScore : ℤ
  citations : List Citation
  studentEndorsements : ℤ := 0
  instructorEndorsements : ℤ := 0
  instructorEndorsed : Bool := false
  totalEndorsements : ℤ := 0
deriving DecidableEq

/-- Record of `threads.json`; `views` is the derived field the script
writes. `createdAtSec` is the parsed `createdAt` timestamp in naive
wall-clock seconds. -/
structure Thread where
  id : String
  courseId : String
  status : String
  createdAtSec : ℤ
  hasAIAnswer : Bool
  views : ℤ := 0
deriving DecidableEq

/-- Lookup in a Python dict built by `{key(x): x for x in l}`: for duplicated
keys the last record wins. -/
def dictGet {α : Type} (key : α → String) (l : List α) (k : String) : Option α :=
  l.reverse.find? (fun a => key a == k)

/-- The fixed demo reference time `NOW = datetime(2025, 10, 7, 12, 0, 0)`,
as seconds (same epoch as `createdAtSec`). -/
def NOW_SEC : ℤ := 1759838400

/-- `get_days_since_creation`: `(NOW - created).days`, i.e. floor division of
the signed second difference by 86400. -/
def get_days_since_creation (createdAtSec : ℤ) : ℤ :=
  Int.fdiv (NOW_SEC - createdAtSec) 86400

/-- `get_course_size_factor`. -/
def get_course_size_factor (enrollment : ℤ) : ℚ :=
  if enrollment < 35 then 8/10
  else if enrollment ≤ 50 then 1
  else 13/10

/-- `get_base_views`: a status-dependent `randint` draw. -/
def get_base_views (status : String) (r : Rng) : ℤ × Rng :=
  if status == "resolved" then Rng.randint 20 35 r
  else if status == "answered" then Rng.randint 15 25 r
  else Rng.randint 8 15 r

/-- The instructor-reply loop of `calculate_quality_factor`: scan the thread's
posts in order, stopping at the first post whose author resolves to a user
with role `"instructor"`. -/
def hasInstructorReply (users : List User) : List Post → Bool
  | [] => false
  | p :: ps =>
    match dictGet User.id users p.authorId with
    | some author =>
      if author.role == "instructor" then true else hasInstructorReply users ps
    | none => hasInstructorReply users ps

/-- `calculate_quality_factor`.  The `ai_answer` argument is accepted (as in
the source) but never used. -/
def calculate_quality_factor (thread : Thread) (thread_posts : List Post)
    (ai_answer : Option AIAnswer) (users : List User) : ℚ :=
  let score : ℚ :=
    (if thread.hasAIAnswer then 3/10 else 0)
    + (if 0 < thread_posts.length then 2/10 else 0)
    + (if thread_posts.any (fun p => p.endorsed) then 3/10 else 0)
    + (if hasInstructorReply users thread_posts then 2/10 else 0)
    + (if thread.status == "resolved" then 25/100 else 0)
  1 + score

/-- `calculate_thread_views`.  The course lookup `courses_by_id[...]` raises
`KeyError` on a dangling `courseId`; that abort is the `Except.error` case and
happens before any random draw. -/
def calculate_thread_views (courses : List Course) (posts : List Post)
    (ai_answers : List AIAnswer) (users : List User) (thread : Thread)
    (r : Rng) : Except String (ℤ × Rng) :=
  let days := get_days_since_creation thread.createdAtSec
  match dictGet Course.id courses thread.courseId with
  | none => Except.error ("KeyError: " ++ thread.courseId)
  | some course =>
    let thread_posts := posts.filter (fun p => p.threadId == thread.id)
    let ai_answer := dictGet AIAnswer.threadId ai_answers thread.id
    let p := get_base_views thread.status r
    let base_views := p.1
    let age_factor : ℚ := min (1 + ((days : ℚ) / 7) * (5/10)) (5/2)
    let quality_factor := calculate_quality_factor thread thread_posts ai_answer users
    let course_size_factor := get_course_size_factor course.enrollmentCount
    let calculated :=
      pyInt ((base_views : ℚ) * age_factor * quality_factor * course_size_factor)
    Except.ok (min calculated 200, p.2)

/-- `calculate_ai_student_endorsements`. -/
def calculate_ai_student_endorsements (ai_answer : AIAnswer) (thread_views : ℤ)
    (r : Rng) : ℤ × Rng :=
  let confidence := ai_answer.confidenceScore
  if 85 ≤ confidence then
    let p := Rng.uniform (3/10) (6/10) r
    (max 0 (pyInt (((confidence : ℚ) / 100) * ((thread_views : ℚ) / 10) * p.1)), p.2)
  else if 60 ≤ confidence then
    let p := Rng.uniform (2/10) (4/10) r
    (max 0 (pyInt (((confidence : ℚ) / 100) * ((thread_views : ℚ) / 20) * p.1)), p.2)
  else
    let p := Rng.uniform 0 2 r
    (max 0 (pyInt p.1), p.2)

/-- `should_instructor_endorse`: the five-way gate.  A random draw is consumed
only when the four data conditions all hold. -/
def should_instructor_endorse (ai_answer : AIAnswer) (thread_views : ℤ)
    (days_old : ℤ) (r : Rng) : Bool × Rng :=
  if ai_answer.confidenceScore < 80 then (false, r)
  else
    let quality_citations := ai_answer.citations.filter (fun c => 80 ≤ c.relevance)
    if quality_citations.length < 2 then (false, r)
    else if days_old < 1 then (false, r)
    else if thread_views < 20 then (false, r)
    else
      let p := Rng.random r
      (decide (p.1 < 4/10), p.2)

/-- The thread loop: `for thread in threads: thread['views'] = calculate_thread_views(thread)`. -/
def applyThreadMetrics (courses : List Course) (posts : List Post)
    (ai_answers : List AIAnswer) (users : List User) :
    List Thread → Rng → Except String (List Thread × Rng)
  | [], r => Except.ok ([], r)
  | t :: ts, r =>
    match calculate_thread_views courses posts ai_answers users t r with
    | Except.error e => Except.error e
    | Except.ok (v, r') =>
      match applyThreadMetrics courses posts ai_answers users ts r' with
      | Except.error e => Except.error e
      | Except.ok (ts', r'') => Except.ok ({ t with views := v } :: ts', r'')

/-- Body of the AI-answer loop.  `next(t for t in threads if ...)` raises
`StopIteration` on a dangling `threadId`; that abort is the `Except.error`
case.  The search runs over the already-mutated thread list. -/
def processAIAnswer (threads : List Thread) (a : AIAnswer) (r : Rng) :
    Except String (AIAnswer × Rng) :=
  match threads.find? (fun t => t.id == a.threadId) with
  | none => Except.error ("StopIteration: " ++ a.threadId)
  | some thread =>
    let days_old := get_days_since_creation thread.createdAtSec
    let p₁ := calculate_ai_student_endorsements a thread.views r
    let student_endorsements := p₁.1
    let p₂ := should_instructor_endorse a thread.views days_old p₁.2
    let instructor_endorsements : ℤ := if p₂.1 then 1 else 0
    let total := student_endorsements + instructor_endorsements
      + (if 0 < instructor_endorsements
         then pyInt ((student_endorsements : ℚ) * (3/10)) else 0)
    Except.ok ({ a with
      studentEndorsements := student_endorsements,
      instructorEndorsements := instructor_endorsements,
      instructorEndorsed := decide (0 < instructor_endorsements),
      totalEndorsements := total }, p₂.2)

/-- The AI-answer loop. -/
def applyAIMetrics (threads : List Thread) :
    List AIAnswer → Rng → Except String (List AIAnswer × Rng)
  | [], r => Except.ok ([], r)
  | a :: as, r =>
    match processAIAnswer threads a r with
    | Except.error e => Except.error e
    | Except.ok (a', r') =>
      match applyAIMetrics threads as r' with
      | Except.error e => Except.error e
      | Except.ok (as', r'') => Except.ok (a' :: as', r'')

/-- The five record collections loaded from (and, for the first three,
written back to) the JSON fixture files. -/
structure Dataset where
  threads : List Thread
  posts : List Post
  ai_answers : List AIAnswer
  courses : List Course
  users : List User
deriving DecidableEq

/-- The whole script after loading: compute views for every thread, then
endorsements for every AI answer; `posts`, `courses` and `users` are carried
through unchanged.  The three `json.dump` calls at the end serialize
`threads`, `posts` and `ai_answers` of the resulting dataset. -/
def applyEngagementMetrics (d : Dataset) (r : Rng) : Except String (Dataset × Rng) :=
  match applyThreadMetrics d.courses d.posts d.ai_answers d.users d.threads r with
  | Except.error e => Except.error e
  | Except.ok (threads', r') =>
    match applyAIMetrics threads' d.ai_answers r' with
    | Except.error e => Except.error e
    | Except.ok (ais', r'') =>
      Except.ok ({ d with threads := threads', ai_answers := ais' }, r'')

/-- The observable result of a run: the dataset that gets serialized. -/
def runMetrics (d : Dataset) (r : Rng) : Except String Dataset :=
  (applyEngagementMetrics d r).map Prod.fst

/-! ### Specification-side definitions, written from the specification's words,
for comparison with the source-side definitions above. -/

/-- Spec §4.1: `ageFactor = min(1 + (days/7)×0.5, 2.5)`. -/
def spec_age_factor (days : ℤ) : ℚ := min (1 + ((days : ℚ) / 7) * (5/10)) (5/2)

/-- Spec §4.1: `courseSizeFactor`: `enrollmentCount < 35 → 0.8;
35 ≤ enrollment ≤ 50 → 1.0; enrollment > 50 → 1.3`. -/
def spec_course_size_factor (enrollment : ℤ) : ℚ :=
  if enrollment < 35 then 8/10
  else if enrollment ≤ 50 then 1
  else 13/10

/-- Claim C2's view formula verbatim: `floor(baseViews × ageFactor ×
qualityFactor × courseSizeFactor)` clamped to a maximum of 200. -/
def claim_views_floor (base : ℤ) (age quality csf : ℚ) : ℤ :=
  min ⌊(base : ℚ) * age * quality * csf⌋ 200

/-- The view formula with the floor replaced by Python `int` truncation
toward zero (what the source computes). -/
def spec_views_trunc (base : ℤ) (age quality csf : ℚ) : ℤ :=
  min (pyInt ((base : ℚ) * age * quality * csf)) 200

/-- Claim C8's day count verbatim: the whole number of days between `NOW` and
`createdAt`, truncated toward zero. -/
def claim_days_trunc (createdAtSec : ℤ) : ℤ :=
  pyInt (((NOW_SEC - createdAtSec : ℤ) : ℚ) / 86400)

/-! ### Concrete test fixtures used by witnesses and counterexamples -/

/-- A one-thread, one-AI-answer fixture: an open thread created 7 days before
`NOW` in a 40-student course, with a confidence-90 AI answer holding two
high-relevance citations. -/
def dW5 : Dataset :=
  ⟨[⟨"t1", "c1", "open", NOW_SEC - 7 * 86400, false, 0⟩], [],
    [⟨"a1", "t1", 90, [⟨90⟩, ⟨85⟩], 0, 0, false, 0⟩], [⟨"c1", 40⟩], []⟩

/-- The AI answer of `dW5` after the run under the all-zero draw stream:
12 views on its thread keeps every endorsement at zero. -/
def aW5out : AIAnswer := ⟨"a1", "t1", 90, [⟨90⟩, ⟨85⟩], 0, 0, false, 0⟩

/-- `dW5` after the run under the all-zero draw stream. -/
def dW5out : Dataset :=
  ⟨[⟨"t1", "c1", "open", NOW_SEC - 7 * 86400, false, 12⟩], [],
    [aW5out], [⟨"c1", 40⟩], []⟩

/-- A fixture for the citation gate: a resolved, 14-day-old thread in a large
course (so 80 views), with a confidence-95 AI answer holding only one
high-relevance citation. -/
def dC4 : Dataset :=
  ⟨[⟨"t1", "c1", "resolved", NOW_SEC - 14 * 86400, true, 0⟩], [],
    [⟨"a1", "t1", 95, [⟨95⟩], 0, 0, false, 0⟩], [⟨"c1", 60⟩], []⟩

/-- The AI answer of `dC4` after the run under the all-zero draw stream: two
student endorsements but no instructor endorsement (only one quality
citation). -/
def aC4out : AIAnswer := ⟨"a1", "t1", 95, [⟨95⟩], 2, 0, false, 2⟩

/-- `dC4` after the run under the all-zero draw stream. -/
def dC4out : Dataset :=
  ⟨[⟨"t1", "c1", "resolved", NOW_SEC - 14 * 86400, true, 80⟩], [],
    [aC4out], [⟨"c1", 60⟩], []⟩

/-! ### Helper lemmas -/

theorem pyInt_eq_floor {q : ℚ} (h : 0 ≤ q) : pyInt q = ⌊q⌋ := by
  rw [pyInt, if_neg (not_lt.mpr h)]

theorem pyInt_nonneg {q : ℚ} (h : 0 ≤ q) : 0 ≤ pyInt q := by
  rw [pyInt_eq_floor h]
  exact Int.floor_nonneg.mpr h

theorem randint_mem {r : Rng} (hr : r.wf) {lo hi : ℤ} (h : lo ≤ hi) :
    lo ≤ (Rng.randint lo hi r).1 ∧ (Rng.randint lo hi r).1 ≤ hi := by
  obtain ⟨h0, h1⟩ := hr r.pos
  have hn : (0 : ℚ) < ((hi - lo + 1 : ℤ) : ℚ) := by exact_mod_cast (by omega : (0:ℤ) < hi - lo + 1)
  have hlow : (0 : ℤ) ≤ ⌊r.stream r.pos * ((hi - lo + 1 : ℤ) : ℚ)⌋ :=
    Int.floor_nonneg.mpr (mul_nonneg h0 hn.le)
  have hup : ⌊r.stream r.pos * ((hi - lo + 1 : ℤ) : ℚ)⌋ < hi - lo + 1 :=
    Int.floor_lt.mpr (by exact_mod_cast mul_lt_of_lt_one_left hn h1)
  simp only [Rng.randint, Rng.next]
  omega

theorem get_base_views_bounds {r : Rng} (hr : r.wf) (s : String) :
    8 ≤ (get_base_views s r).1 ∧ (get_base_views s r).1 ≤ 35 := by
  rw [get_base_views]
  split_ifs
  · obtain ⟨ha, hb⟩ := randint_mem hr (show (20:ℤ) ≤ 35 by norm_num); exact ⟨by omega, by omega⟩
  · obtain ⟨ha, hb⟩ := randint_mem hr (show (15:ℤ) ≤ 25 by norm_num); exact ⟨by omega, by omega⟩
  · obtain ⟨ha, hb⟩ := randint_mem hr (show (8:ℤ) ≤ 15 by norm_num); exact ⟨by omega, by omega⟩

theorem hasInstructorReply_eq_any (users : List User) (ps : List Post) :
    hasInstructorReply users ps
      = ps.any (fun p => (dictGet User.id users p.authorId).map User.role == some "instructor") := by
  induction ps with
  | nil => rfl
  | cons p ps ih =>
    rw [hasInstructorReply, List.any_cons]
    cases hfind : dictGet User.id users p.authorId with
    | none => simp [hfind, ih]
    | some u =>
      by_cases hrole : u.role == "instructor"
      · simp [hfind, hrole]
      · simp [hfind, hrole, ih]

theorem quality_factor_bounds (t : Thread) (ps : List Post) (ai : Option AIAnswer)
    (users : List User) :
    1 ≤ calculate_quality_factor t ps ai users
      ∧ calculate_quality_factor t ps ai users ≤ 9/4 := by
  rw [calculate_quality_factor]
  split_ifs <;> norm_num

theorem course_size_factor_bounds (e : ℤ) :
    8/10 ≤ get_course_size_factor e ∧ get_course_size_factor e ≤ 13/10 := by
  rw [get_course_size_factor]
  split_ifs <;> norm_num

theorem days_floor_eq (c : ℤ) :
    get_days_since_creation c = ⌊((NOW_SEC - c : ℤ) : ℚ) / 86400⌋ := by
  rw [get_days_since_creation, Int.fdiv_eq_ediv _ (by norm_num),
    show ((86400 : ℚ)) = ((86400 : ℕ) : ℚ) by norm_num,
    Rat.floor_intCast_div_natCast]
  norm_num

/-! ### Claim C8 -/

unseal Rat.add Rat.mul Rat.inv Rat.sub in
/-- C8 counterexample: for a `createdAt` one hour in the future the code's day
count is `-1` (floor division), while the whole number of days truncated
toward zero is `0`: the day count is floored, not truncated toward zero. -/
theorem C8_trunc_cex :
    get_days_since_creation (NOW_SEC + 3600) = -1
    ∧ claim_days_trunc (NOW_SEC + 3600) = 0
    ∧ ((-1 : ℤ) ≠ 0) := by decide

/-- C8 (amended): the day count equals the floor (rounding toward negative
infinity, not truncation toward zero) of the signed second difference between
`NOW` and `createdAt` divided by 86400, and it is negative whenever
`createdAt` lies in the future, including differences under one whole day. -/
theorem C8_days_floored (c : ℤ) :
    get_days_since_creation c = ⌊((NOW_SEC - c : ℤ) : ℚ) / 86400⌋
    ∧ (NOW_SEC < c → get_days_since_creation c < 0) := by
  refine ⟨days_floor_eq c, fun hc => ?_⟩
  rw [days_floor_eq c]
  have hneg : ((NOW_SEC - c : ℤ) : ℚ) / 86400 < 0 :=
    div_neg_of_neg_of_pos (by exact_mod_cast sub_neg.mpr hc) (by norm_num)
  exact Int.floor_lt.mpr (by exact_mod_cast hneg)

/-- Witness for C8: a thread created two days after `NOW` gets a negative day
count. -/
theorem C8_days_floored_witness :
    get_days_since_creation (NOW_SEC + 172800) < 0 :=
  (C8_days_floored (NOW_SEC + 172800)).2 (by omega)

/-! ### Claim C1 -/

unseal Rat.add Rat.mul Rat.inv Rat.sub in
/-- C1 counterexample: a thread created 28 days in the future, in a small
course, with well-formed entropy, gets `views = -6 < 0`: the claimed lower
bound `0 ≤ views` fails without a precondition on `createdAt`. -/
theorem C1_negative_views_cex :
    (calculate_thread_views [⟨"c1", 30⟩] [] [] []
        ⟨"t1", "c1", "open", NOW_SEC + 28 * 86400, false, 0⟩
        ⟨fun _ => 0, 0⟩).map Prod.fst = Except.ok (-6)
    ∧ ((-6 : ℤ) < 0)
    ∧ Rng.wf ⟨fun _ => 0, 0⟩ :=
  ⟨by decide, by decide, fun n => ⟨le_refl 0, by norm_num⟩⟩

/-- C1 (amended): every computed view count is at most 200, and it is also
nonnegative provided the thread's `createdAt` does not lie in the future; for
future-dated threads the value can be negative. -/
theorem C1_views_range (courses : List Course) (posts : List Post)
    (ais : List AIAnswer) (users : List User) (t : Thread) (r : Rng)
    (hr : r.wf) (v : ℤ)
    (h : (calculate_thread_views courses posts ais users t r).map Prod.fst = Except.ok v) :
    v ≤ 200 ∧ (t.createdAtSec ≤ NOW_SEC → 0 ≤ v) := by
  rw [calculate_thread_views] at h
  cases hc : dictGet Course.id courses t.courseId with
  | none => rw [hc] at h; exact absurd h (by simp [Except.map])
  | some course =>
    rw [hc] at h
    simp only [Except.map, Except.ok.injEq] at h
    subst h
    refine ⟨min_le_right _ _, fun hcr => ?_⟩
    refine le_min ?_ (by norm_num)
    apply pyInt_nonneg
    have hb : (0 : ℚ) ≤ ((get_base_views t.status r).1 : ℚ) := by
      exact_mod_cast le_trans (by norm_num) (get_base_views_bounds hr t.status).1
    have hdays : (0 : ℚ) ≤ ((get_days_since_creation t.createdAtSec : ℤ) : ℚ) := by
      have h0 : (0 : ℤ) ≤ get_days_since_creation t.createdAtSec := by
        rw [get_days_since_creation, Int.fdiv_eq_ediv _ (by norm_num)]
        exact Int.ediv_nonneg (by omega) (by norm_num)
      exact_mod_cast h0
    have hage : (0 : ℚ) ≤ min (1 + ((get_days_since_creation t.createdAtSec : ℤ) : ℚ) / 7 * (5/10)) (5/2) := by
      refine le_min ?_ (by norm_num)
      have h7 : (0 : ℚ) ≤ ((get_days_since_creation t.createdAtSec : ℤ) : ℚ) / 7 * (5/10) :=
        mul_nonneg (div_nonneg hdays (by norm_num)) (by norm_num)
      linarith
    have hq : (0 : ℚ) ≤ calculate_quality_factor t
        (posts.filter fun p => p.threadId == t.id)
        (dictGet AIAnswer.threadId ais t.id) users :=
      le_trans (by norm_num) (quality_factor_bounds _ _ _ _).1
    have hcsf : (0 : ℚ) ≤ get_course_size_factor course.enrollmentCount :=
      le_trans (by norm_num) (course_size_factor_bounds _).1
    exact mul_nonneg (mul_nonneg (mul_nonneg hb hage) hq) hcsf

unseal Rat.add Rat.mul Rat.inv Rat.sub in
/-- Witness for C1: a thread created exactly at `NOW` in a medium course gets
8 views, which satisfies both bounds. -/
theorem C1_views_range_witness :
    (8 : ℤ) ≤ 200 ∧ ((NOW_SEC : ℤ) ≤ NOW_SEC → (0 : ℤ) ≤ 8) :=
  C1_views_range [⟨"c1", 40⟩] [] [] [] ⟨"t1", "c1", "open", NOW_SEC, false, 0⟩
    ⟨fun _ => 0, 0⟩ (fun n => ⟨le_refl 0, by norm_num⟩) 8 (by decide)

/-! ### Claim C2 -/

unseal Rat.add Rat.mul Rat.inv Rat.sub in
/-- C2 counterexample: on a thread created 28 days in the future the code
returns `-6` views, while the claim's formula `floor(baseViews × ageFactor ×
qualityFactor × courseSizeFactor)` (clamped at 200) evaluates to `-7` at the
very factors of that thread: Python `int()` truncates toward zero, it does
not floor. -/
theorem C2_floor_vs_trunc_cex :
    (calculate_thread_views [⟨"c1", 30⟩] [] [] []
        ⟨"t2", "c1", "open", NOW_SEC + 28 * 86400, false, 0⟩
        ⟨fun _ => 0, 0⟩).map Prod.fst = Except.ok (-6)
    ∧ get_days_since_creation (NOW_SEC + 28 * 86400) = -28
    ∧ spec_age_factor (-28) = -1
    ∧ (get_base_views "open" ⟨fun _ => 0, 0⟩).1 = 8
    ∧ calculate_quality_factor ⟨"t2", "c1", "open", NOW_SEC + 28 * 86400, false, 0⟩ [] none [] = 1
    ∧ spec_course_size_factor 30 = 8/10
    ∧ claim_views_floor 8 (-1) 1 (8/10) = -7
    ∧ ((-6 : ℤ) ≠ -7) := by decide

/-- C2 (amended): for every thread whose course resolves,
`calculate_thread_views` returns the spec's formula with the floor replaced
by truncation toward zero (the two agree whenever the product is
nonnegative, in particular for 14-day-old resolved threads): `min(int(baseViews
× ageFactor × qualityFactor × courseSizeFactor), 200)` with
`ageFactor = min(1 + (days/7)*0.5, 2.5)` and the three-tier course size
factor. -/
theorem C2_views_formula (courses : List Course) (posts : List Post)
    (ais : List AIAnswer) (users : List User) (t : Thread) (r : Rng)
    (course : Course) (h : dictGet Course.id courses t.courseId = some course) :
    (calculate_thread_views courses posts ais users t r).map Prod.fst
      = Except.ok (spec_views_trunc (get_base_views t.status r).1
          (spec_age_factor (get_days_since_creation t.createdAtSec))
          (calculate_quality_factor t (posts.filter fun p => p.threadId == t.id)
            (dictGet AIAnswer.threadId ais t.id) users)
          (spec_course_size_factor course.enrollmentCount)) := by
  rw [calculate_thread_views, h]
  rfl

unseal Rat.add Rat.mul Rat.inv Rat.sub in
/-- Witness for C2: the spec's worked example — resolved, 14 days old,
enrollment 60, an endorsed instructor reply, an AI answer, `baseViews = 25` —
yields 146 views. -/
theorem C2_views_formula_witness :
    (calculate_thread_views [⟨"c1", 60⟩] [⟨"p1", "t1", "u1", true⟩]
        [⟨"a1", "t1", 90, [], 0, 0, false, 0⟩] [⟨"u1", "instructor"⟩]
        ⟨"t1", "c1", "resolved", NOW_SEC - 14 * 86400, true, 0⟩
        ⟨fun _ => 5/16, 0⟩).map Prod.fst = Except.ok 146 :=
  (C2_views_formula [⟨"c1", 60⟩] [⟨"p1", "t1", "u1", true⟩]
      [⟨"a1", "t1", 90, [], 0, 0, false, 0⟩] [⟨"u1", "instructor"⟩]
      ⟨"t1", "c1", "resolved", NOW_SEC - 14 * 86400, true, 0⟩
      ⟨fun _ => 5/16, 0⟩ ⟨"c1", 60⟩ (by decide)).trans (by decide)

/-! ### Claim C3 -/

/-- C3 (confirmed): the pipeline is a pure function of the loaded dataset and
of the random stream fixed by the seed: two runs over identical inputs with
identically seeded generators produce identical outputs (and identical final
generator states). -/
theorem C3_deterministic (d₁ d₂ : Dataset) (r₁ r₂ : Rng)
    (hd : d₁ = d₂) (hr : r₁ = r₂) :
    applyEngagementMetrics d₁ r₁ = applyEngagementMetrics d₂ r₂ := by
  rw [hd, hr]

/-- Witness for C3 at a concrete dataset and stream. -/
theorem C3_deterministic_witness :
    applyEngagementMetrics ⟨[], [], [], [], []⟩ ⟨fun _ => 0, 0⟩
      = applyEngagementMetrics ⟨[], [], [], [], []⟩ ⟨fun _ => 0, 0⟩ :=
  C3_deterministic _ _ _ _ rfl rfl

/-! ### Claim C7 -/

/-- C7 (confirmed): the quality factor is 1.0 plus five independent,
non-exclusive bonuses — +0.3 for an AI answer, +0.2 for at least one reply,
+0.3 for an endorsed reply, +0.2 (once) if any reply's author resolves to an
instructor, +0.25 for resolved status — and always lies in `[1, 2.25]`. -/
theorem C7_quality_factor (t : Thread) (ps : List Post) (ai : Option AIAnswer)
    (users : List User) :
    calculate_quality_factor t ps ai users
      = 1 + ((if t.hasAIAnswer then 3/10 else 0)
          + (if ps ≠ [] then 2/10 else 0)
          + (if ps.any (fun p => p.endorsed) then 3/10 else 0)
          + (if ps.any (fun p =>
                (dictGet User.id users p.authorId).map User.role == some "instructor")
             then 2/10 else 0)
          + (if t.status == "resolved" then 25/100 else 0))
    ∧ 1 ≤ calculate_quality_factor t ps ai users
    ∧ calculate_quality_factor t ps ai users ≤ 9/4 := by
  refine ⟨?_, (quality_factor_bounds t ps ai users).1, (quality_factor_bounds t ps ai users).2⟩
  rw [calculate_quality_factor, hasInstructorReply_eq_any]
  simp only [List.length_pos]

/-! ### Helper lemmas for the AI-answer loop -/

theorem student_endorsements_nonneg (a : AIAnswer) (v : ℤ) (r : Rng) :
    0 ≤ (calculate_ai_student_endorsements a v r).1 := by
  rw [calculate_ai_student_endorsements]
  split_ifs <;> exact le_max_left 0 _

theorem gate_false_of_few_citations {a : AIAnswer} {v d : ℤ} (r : Rng)
    (h : (a.citations.filter (fun c => 80 ≤ c.relevance)).length < 2) :
    should_instructor_endorse a v d r = (false, r) := by
  simp only [should_instructor_endorse]
  split_ifs <;> rfl

theorem processAIAnswer_ok {threads : List Thread} {a : AIAnswer} {r : Rng}
    {a' : AIAnswer} {r' : Rng}
    (h : processAIAnswer threads a r = Except.ok (a', r')) :
    a'.citations = a.citations
    ∧ 0 ≤ a'.studentEndorsements
    ∧ (a'.instructorEndorsements = 0 ∨ a'.instructorEndorsements = 1)
    ∧ a'.totalEndorsements = a'.studentEndorsements + a'.instructorEndorsements
        + (if 0 < a'.instructorEndorsements
           then pyInt ((a'.studentEndorsements : ℚ) * (3/10)) else 0)
    ∧ (a'.instructorEndorsed = true ↔ 0 < a'.instructorEndorsements)
    ∧ ((a.citations.filter (fun c => 80 ≤ c.relevance)).length < 2 →
        a'.instructorEndorsements = 0) := by
  rw [processAIAnswer] at h
  cases hf : threads.find? (fun t => t.id == a.threadId) with
  | none => rw [hf] at h; exact absurd h (by simp)
  | some thread =>
    rw [hf] at h
    simp only [Except.ok.injEq, Prod.mk.injEq] at h
    obtain ⟨ha, -⟩ := h
    subst ha
    cases hg : (should_instructor_endorse a thread.views
        (get_days_since_creation thread.createdAtSec)
        (calculate_ai_student_endorsements a thread.views r).2).1 with
    | false =>
      refine ⟨rfl, student_endorsements_nonneg a thread.views r, ?_, ?_, ?_, fun _ => ?_⟩
      · simp [hg]
      · simp [hg]
      · simp [hg]
      · simp [hg]
    | true =>
      refine ⟨rfl, student_endorsements_nonneg a thread.views r, ?_, ?_, ?_, fun hcit => ?_⟩
      · simp [hg]
      · simp [hg]
      · simp [hg]
      · rw [gate_false_of_few_citations _ hcit] at hg
        exact absurd hg (by simp)

theorem applyAIMetrics_mem {threads : List Thread} {as : List AIAnswer} {r : Rng}
    {l : List AIAnswer} {rf : Rng}
    (h : applyAIMetrics threads as r = Except.ok (l, rf)) :
    ∀ x ∈ l, ∃ a ∈ as, ∃ r₀ r₁, processAIAnswer threads a r₀ = Except.ok (x, r₁) := by
  induction as generalizing r l rf with
  | nil =>
    simp only [applyAIMetrics, Except.ok.injEq, Prod.mk.injEq] at h
    obtain ⟨hl, -⟩ := h
    subst hl
    intro x hx
    exact absurd hx (List.not_mem_nil x)
  | cons a as ih =>
    simp only [applyAIMetrics] at h
    split at h
    · exact absurd h (by simp)
    · rename_i a' r₁ hp
      split at h
      · exact absurd h (by simp)
      · rename_i l' r₂ hq
        simp only [Except.ok.injEq, Prod.mk.injEq] at h
        obtain ⟨hl, -⟩ := h
        subst hl
        intro x hx
        rcases List.mem_cons.mp hx with hx1 | hx2
        · subst hx1
          exact ⟨a, List.mem_cons_self a as, r, r₁, hp⟩
        · obtain ⟨b, hb, r₀, r₃, hpb⟩ := ih hq x hx2
          exact ⟨b, List.mem_cons_of_mem a hb, r₀, r₃, hpb⟩

theorem applyThreadMetrics_ids {courses : List Course} {posts : List Post}
    {ais : List AIAnswer} {users : List User} {ts : List Thread} {r : Rng}
    {ts' : List Thread} {rf : Rng}
    (h : applyThreadMetrics courses posts ais users ts r = Except.ok (ts', rf)) :
    ts'.map Thread.id = ts.map Thread.id := by
  induction ts generalizing r ts' rf with
  | nil =>
    simp only [applyThreadMetrics, Except.ok.injEq, Prod.mk.injEq] at h
    obtain ⟨hl, -⟩ := h
    subst hl
    rfl
  | cons t ts ih =>
    simp only [applyThreadMetrics] at h
    split at h
    · exact absurd h (by simp)
    · rename_i v r₁ hv
      split at h
      · exact absurd h (by simp)
      · rename_i l' r₂ hq
        simp only [Except.ok.injEq, Prod.mk.injEq] at h
        obtain ⟨hl, -⟩ := h
        subst hl
        simp only [List.map_cons, ih hq]

theorem calculate_thread_views_error {courses : List Course} {posts : List Post}
    {ais : List AIAnswer} {users : List User} {t : Thread} (r : Rng)
    (h : dictGet Course.id courses t.courseId = none) :
    calculate_thread_views courses posts ais users t r
      = Except.error ("KeyError: " ++ t.courseId) := by
  rw [calculate_thread_views, h]

theorem applyThreadMetrics_error {courses : List Course} {posts : List Post}
    {ais : List AIAnswer} {users : List User} {ts : List Thread}
    (h : ∃ t ∈ ts, dictGet Course.id courses t.courseId = none) (r : Rng) :
    ∃ e, applyThreadMetrics courses posts ais users ts r = Except.error e := by
  induction ts generalizing r with
  | nil => simp at h
  | cons t ts ih =>
    obtain ⟨t', ht', hnone⟩ := h
    rcases List.mem_cons.mp ht' with h1 | h2
    · subst h1
      exact ⟨"KeyError: " ++ t'.courseId,
        by simp only [applyThreadMetrics, calculate_thread_views_error r hnone]⟩
    · cases hv : calculate_thread_views courses posts ais users t r with
      | error e => exact ⟨e, by simp only [applyThreadMetrics, hv]⟩
      | ok p =>
        obtain ⟨v, r₁⟩ := p
        obtain ⟨e, he⟩ := ih ⟨t', h2, hnone⟩ r₁
        exact ⟨e, by simp only [applyThreadMetrics, hv, he]⟩

theorem processAIAnswer_error {threads : List Thread} {a : AIAnswer} (r : Rng)
    (h : threads.find? (fun t => t.id == a.threadId) = none) :
    processAIAnswer threads a r = Except.error ("StopIteration: " ++ a.threadId) := by
  rw [processAIAnswer, h]

theorem applyAIMetrics_error {threads : List Thread} {as : List AIAnswer}
    (h : ∃ a ∈ as, threads.find? (fun t => t.id == a.threadId) = none) (r : Rng) :
    ∃ e, applyAIMetrics threads as r = Except.error e := by
  induction as generalizing r with
  | nil => simp at h
  | cons a as ih =>
    obtain ⟨a', ha', hnone⟩ := h
    rcases List.mem_cons.mp ha' with h1 | h2
    · subst h1
      exact ⟨"StopIteration: " ++ a'.threadId,
        by simp only [applyAIMetrics, processAIAnswer_error r hnone]⟩
    · cases hp : processAIAnswer threads a r with
      | error e => exact ⟨e, by simp only [applyAIMetrics, hp]⟩
      | ok p =>
        obtain ⟨a₁, r₁⟩ := p
        obtain ⟨e, he⟩ := ih ⟨a', h2, hnone⟩ r₁
        exact ⟨e, by simp only [applyAIMetrics, hp, he]⟩

theorem runMetrics_ok {d : Dataset} {r : Rng} {d' : Dataset}
    (h : runMetrics d r = Except.ok d') :
    ∃ ts' r' ais' r'',
      applyThreadMetrics d.courses d.posts d.ai_answers d.users d.threads r
        = Except.ok (ts', r')
      ∧ applyAIMetrics ts' d.ai_answers r' = Except.ok (ais', r'')
      ∧ d' = { d with threads := ts', ai_answers := ais' } := by
  rw [runMetrics, applyEngagementMetrics] at h
  split at h
  · exact absurd h (by simp [Except.map])
  · rename_i ts' r' h1
    split at h
    · exact absurd h (by simp [Except.map])
    · rename_i ais' r'' h2
      simp only [Except.map, Except.ok.injEq] at h
      exact ⟨ts', r', ais', r'', h1, h2, h.symm⟩

/-! ### Claim C4 -/

/-- C4 (confirmed): the instructor gate is true exactly when all five
conditions hold — confidence ≥ 80, at least two citations with relevance
≥ 80, day count ≥ 1, views ≥ 20, and the Bernoulli(0.4) draw succeeds — and
in every completed run an AI answer with fewer than two quality citations
gets `instructorEndorsements = 0` regardless of everything else. -/
theorem C4_instructor_gate :
    (∀ (a : AIAnswer) (v days : ℤ) (r : Rng),
      ((should_instructor_endorse a v days r).1 = true ↔
        (80 ≤ a.confidenceScore
         ∧ 2 ≤ (a.citations.filter (fun c => 80 ≤ c.relevance)).length
         ∧ 1 ≤ days ∧ 20 ≤ v ∧ r.stream r.pos < 4/10)))
    ∧ (∀ (d : Dataset) (r : Rng) (d' : Dataset), runMetrics d r = Except.ok d' →
        ∀ a ∈ d'.ai_answers,
          (a.citations.filter (fun c => 80 ≤ c.relevance)).length < 2 →
          a.instructorEndorsements = 0) := by
  constructor
  · intro a v days r
    simp only [should_instructor_endorse, Rng.random, Rng.next]
    split_ifs with h1 h2 h3 h4
    · simp only [Bool.false_eq_true, false_iff]
      rintro ⟨hc, -, -, -, -⟩
      omega
    · simp only [Bool.false_eq_true, false_iff]
      rintro ⟨-, hc, -, -, -⟩
      omega
    · simp only [Bool.false_eq_true, false_iff]
      rintro ⟨-, -, hc, -, -⟩
      omega
    · simp only [Bool.false_eq_true, false_iff]
      rintro ⟨-, -, -, hc, -⟩
      omega
    · simp only [decide_eq_true_eq]
      constructor
      · intro hu
        exact ⟨by omega, by omega, by omega, by omega, hu⟩
      · rintro ⟨-, -, -, -, hu⟩
        exact hu
  · intro d r d' h a ha hcit
    obtain ⟨ts', r', ais', r'', h1, h2, h3⟩ := runMetrics_ok h
    subst h3
    obtain ⟨a₀, ha₀, r₀, r₁, hp⟩ := applyAIMetrics_mem h2 a ha
    obtain ⟨hcits, -, -, -, -, hfew⟩ := processAIAnswer_ok hp
    exact hfew (by rwa [hcits] at hcit)

unseal Rat.add Rat.mul Rat.inv Rat.sub in
/-- Witness for C4: in the `dC4` run the AI answer has confidence 95, an aged
thread with 80 views and a succeeding draw would be available, yet the single
quality citation forces zero instructor endorsements. -/
theorem C4_instructor_gate_witness : aC4out.instructorEndorsements = 0 :=
  C4_instructor_gate.2 dC4 ⟨fun _ => 0, 0⟩ dC4out (by decide) aC4out (by decide)
    (by decide)

/-! ### Claim C5 -/

/-- C5 (confirmed): after a completed run every AI answer has a nonnegative
student endorsement count, an instructor endorsement count of 0 or 1, and a
total at least the sum of the two. -/
theorem C5_endorsement_invariants (d : Dataset) (r : Rng) (d' : Dataset)
    (h : runMetrics d r = Except.ok d') :
    ∀ a ∈ d'.ai_answers,
      0 ≤ a.studentEndorsements
      ∧ (a.instructorEndorsements = 0 ∨ a.instructorEndorsements = 1)
      ∧ a.studentEndorsements + a.instructorEndorsements ≤ a.totalEndorsements := by
  obtain ⟨ts', r', ais', r'', h1, h2, h3⟩ := runMetrics_ok h
  subst h3
  intro a ha
  obtain ⟨a₀, ha₀, r₀, r₁, hp⟩ := applyAIMetrics_mem h2 a ha
  obtain ⟨-, hs, hi, htot, -, -⟩ := processAIAnswer_ok hp
  refine ⟨hs, hi, ?_⟩
  rw [htot]
  have hb : 0 ≤ (if 0 < a.instructorEndorsements
      then pyInt ((a.studentEndorsements : ℚ) * (3/10)) else 0) := by
    split_ifs
    · exact pyInt_nonneg (mul_nonneg (by exact_mod_cast hs) (by norm_num))
    · exact le_refl 0
  omega

unseal Rat.add Rat.mul Rat.inv Rat.sub in
/-- Witness for C5 at the completed `dW5` run. -/
theorem C5_endorsement_invariants_witness :
    0 ≤ aW5out.studentEndorsements
    ∧ (aW5out.instructorEndorsements = 0 ∨ aW5out.instructorEndorsements = 1)
    ∧ aW5out.studentEndorsements + aW5out.instructorEndorsements
        ≤ aW5out.totalEndorsements :=
  C5_endorsement_invariants dW5 ⟨fun _ => 0, 0⟩ dW5out (by decide) aW5out (by decide)

/-! ### Claim C6 -/

/-- C6 (confirmed): after a completed run every AI answer's total equals
students + instructors, plus `floor(studentEndorsements × 0.3)` exactly when
the instructor endorsed, and the `instructorEndorsed` flag is true iff
`instructorEndorsements > 0`. -/
theorem C6_total_and_flag (d : Dataset) (r : Rng) (d' : Dataset)
    (h : runMetrics d r = Except.ok d') :
    ∀ a ∈ d'.ai_answers,
      a.totalEndorsements = a.studentEndorsements + a.instructorEndorsements
        + (if a.instructorEndorsed
           then ⌊(a.studentEndorsements : ℚ) * (3/10)⌋ else 0)
      ∧ (a.instructorEndorsed = true ↔ 0 < a.instructorEndorsements) := by
  obtain ⟨ts', r', ais', r'', h1, h2, h3⟩ := runMetrics_ok h
  subst h3
  intro a ha
  obtain ⟨a₀, ha₀, r₀, r₁, hp⟩ := applyAIMetrics_mem h2 a ha
  obtain ⟨-, hs, -, htot, hflag, -⟩ := processAIAnswer_ok hp
  refine ⟨?_, hflag⟩
  rw [htot, pyInt_eq_floor (mul_nonneg (by exact_mod_cast hs) (by norm_num))]
  by_cases hb : 0 < a.instructorEndorsements
  · rw [if_pos hb, if_pos (hflag.mpr hb)]
  · rw [if_neg hb, if_neg (fun hh => hb (hflag.mp hh))]

unseal Rat.add Rat.mul Rat.inv Rat.sub in
/-- Witness for C6 at the completed `dW5` run. -/
theorem C6_total_and_flag_witness :
    aW5out.totalEndorsements = aW5out.studentEndorsements + aW5out.instructorEndorsements
      + (if aW5out.instructorEndorsed
         then ⌊(aW5out.studentEndorsements : ℚ) * (3/10)⌋ else 0)
    ∧ (aW5out.instructorEndorsed = true ↔ 0 < aW5out.instructorEndorsements) :=
  C6_total_and_flag dW5 ⟨fun _ => 0, 0⟩ dW5out (by decide) aW5out (by decide)

/-! ### Claim C9 -/

unseal Rat.add Rat.mul Rat.inv Rat.sub in
/-- C9 counterexample: a post whose `threadId` matches no thread does *not*
abort the run — the grouping of posts by thread never looks a thread up, so
the dangling post is silently ignored and the run completes. -/
theorem C9_dangling_post_cex :
    runMetrics ⟨[⟨"t1", "c1", "open", NOW_SEC, false, 0⟩],
        [⟨"p1", "ghost", "u1", false⟩], [], [⟨"c1", 40⟩], []⟩ ⟨fun _ => 0, 0⟩
      = Except.ok ⟨[⟨"t1", "c1", "open", NOW_SEC, false, 8⟩],
          [⟨"p1", "ghost", "u1", false⟩], [], [⟨"c1", 40⟩], []⟩
    ∧ (∀ t ∈ ([⟨"t1", "c1", "open", NOW_SEC, false, 0⟩] : List Thread),
        t.id ≠ "ghost") :=
  ⟨by decide, by decide⟩

/-- C9 (amended): a thread whose `courseId` matches no course, or an AI answer
whose `threadId` matches no thread, aborts the run with a lookup failure; a
post with a dangling `threadId` is not detected (see the counterexample). -/
theorem C9_dangling_refs (d : Dataset) (r : Rng) :
    ((∃ t ∈ d.threads, dictGet Course.id d.courses t.courseId = none) →
      (runMetrics d r).toOption = none)
    ∧ ((∃ a ∈ d.ai_answers, ∀ t ∈ d.threads, t.id ≠ a.threadId) →
      (runMetrics d r).toOption = none) := by
  constructor
  · intro hex
    obtain ⟨e, he⟩ := applyThreadMetrics_error hex r
    rw [runMetrics, applyEngagementMetrics, he]
    rfl
  · rintro ⟨a, ha, hall⟩
    rw [runMetrics, applyEngagementMetrics]
    split
    · rfl
    · rename_i ts' r' h1
      have hids := applyThreadMetrics_ids h1
      have hfind : ts'.find? (fun t => t.id == a.threadId) = none := by
        apply List.find?_eq_none.mpr
        intro t' ht'
        have hmem : t'.id ∈ ts'.map Thread.id := List.mem_map_of_mem Thread.id ht'
        rw [hids] at hmem
        obtain ⟨t₀, ht₀, hid⟩ := List.mem_map.mp hmem
        simp only [beq_iff_eq]
        rw [← hid]
        exact hall t₀ ht₀
      obtain ⟨e, he⟩ := applyAIMetrics_error ⟨a, ha, hfind⟩ r'
      rw [he]
      rfl

unseal Rat.add Rat.mul Rat.inv Rat.sub in
/-- Witness for C9: a thread referencing a missing course aborts the run. -/
theorem C9_dangling_refs_witness :
    (runMetrics ⟨[⟨"t9", "nocourse", "open", NOW_SEC, false, 0⟩], [], [], [], []⟩
        ⟨fun _ => 0, 0⟩).toOption = none :=
  (C9_dangling_refs _ _).1 (by decide)

/-! ### Claim C10 -/

/-- C10 (confirmed): a completed run returns the `posts`, `courses` and
`users` collections exactly as loaded — only `threads` and `ai_answers`
receive derived fields; in particular the serialized posts are
element-for-element the loaded ones. -/
theorem C10_frame (d : Dataset) (r : Rng) (d' : Dataset)
    (h : runMetrics d r = Except.ok d') :
    d'.posts = d.posts ∧ d'.courses = d.courses ∧ d'.users = d.users := by
  obtain ⟨ts', r', ais', r'', -, -, h3⟩ := runMetrics_ok h
  subst h3
  exact ⟨rfl, rfl, rfl⟩

unseal Rat.add Rat.mul Rat.inv Rat.sub in
/-- Witness for C10 at a completed run over an empty dataset. -/
theorem C10_frame_witness :
    ([] : List Post) = [] ∧ ([] : List Course) = [] ∧ ([] : List User) = [] :=
  C10_frame ⟨[], [], [], [], []⟩ ⟨fun _ => 0, 0⟩ ⟨[], [], [], [], []⟩ (by decide)

end Engagement
